import Mathlib

/-!
Verification development for the NikyClean market-data scripts.

The repository is a family of Python scripts that read a ticker list from a
spreadsheet, query a quote provider for several data modules, merge the
per-module field maps into one flat row per ticker, normalize units and
timestamps, classify each row's data-quality status, and write the rows out.

This file shallowly embeds the pipeline fragments that the specification's
testable properties talk about:

* `fetch_fast` from `src/live_session_BEST.py` (normalize/fetch stage),
* the percent normalization applied to `regularMarketChangePercent`,
* `fetch_with_retry` and the per-chunk status derivation from `Stock_Data_A.py`,
* the ticker loader of `Stock_Data_A.py` and the final cleanup of
  `Stock_Data_A_RetrySafe.py`,
* the per-ticker loop and history gap-fill of `update_asx_two.py`,
* `normalize_date` / `normalize_time` from `Stock_Data_complete404.py`,
* `_parse_percent_to_fraction` from `src/live_session_SUPER.py`.

Python scalar values are modelled by `PyVal` (None, a number, or a string);
dictionaries are association lists; rationals stand in for Python floats.
-/

/-- A Python scalar value as it flows through the row pipeline:
`None`, a number (floats modelled as rationals), or a string. -/
inductive PyVal where
  | none : PyVal
  | num (q : ℚ) : PyVal
  | str (s : String) : PyVal
deriving DecidableEq

/-- Python truthiness for `PyVal`: `None`, `0` and `""` are falsy. -/
def PyVal.truthy : PyVal → Bool
  | .none => false
  | .num q => decide (q ≠ 0)
  | .str s => decide (s ≠ "")

/-- Python `a or b`: returns `a` when `a` is truthy, otherwise `b`. -/
def pyOr (a b : PyVal) : PyVal :=
  if a.truthy then a else b

/-- A provider field map: provider field name to raw value
(one symbol inside one module). -/
abbrev FieldMap := List (String × PyVal)

/-- Association-list lookup (Python `dict` access by key, first binding wins). -/
def alookup {α : Type} : List (String × α) → String → Option α
  | [], _ => Option.none
  | (k, v) :: rest, key => if k = key then some v else alookup rest key

/-- Python `d.get(key)` on a field map: `None` when the key is absent. -/
def dget (fm : FieldMap) (k : String) : PyVal :=
  (alookup fm k).getD PyVal.none

/-- A raw module response keyed by symbol; a symbol maps to either a field
dict (`some`) or some non-dict payload (`Option.none`), mirroring the
`isinstance(v, dict)` guard in `get_dict`. -/
abbrev RawResp := List (String × Option FieldMap)

/-- `get_dict(d, key)` from `live_session_BEST.fetch_fast`:
the per-symbol value when it is a dict, else the empty dict. -/
def get_dict (d : RawResp) (key : String) : FieldMap :=
  match alookup d key with
  | some (some fm) => fm
  | _ => []

/-- The percent normalization applied to `regularMarketChangePercent` in
`fetch_fast` (`live_session_BEST.py` lines 199-204, `live_session_SUPER.py`
lines 265-271): when the value is a number of magnitude above 1 it is divided
by 100; `None` passes through (the outer `is not None` guard) and a
non-numeric value is left unchanged (`abs` raises, the `except` swallows it). -/
def normalize_change_pct : PyVal → PyVal
  | .num q => if 1 < |q| then .num (q / 100) else .num q
  | v => v

/-- One output row of the FAST stage (`FAST_COLS` minus the volatile
`RefreshTime` column of the SUPER variant, matching `live_session_BEST`). -/
structure FastRow where
  ticker : PyVal
  close : PyVal
  openV : PyVal
  last : PyVal
  low : PyVal
  high : PyVal
  pe : PyVal
  change : PyVal
  changePct : PyVal
  volume : PyVal
  volumeAverage : PyVal
deriving DecidableEq

/-- The per-symbol row construction inside `fetch_fast`
(`live_session_BEST.py` lines 185-221): each canonical field is the Python
`or` of the summary-detail candidate and the price candidate (price first
only for `Last`), and the change percent is unit-normalized. -/
def buildFastRow (s : String) (p d : FieldMap) : FastRow where
  ticker := .str s
  close := pyOr (dget d "regularMarketPreviousClose") (dget p "regularMarketPreviousClose")
  openV := pyOr (dget d "regularMarketOpen") (dget p "regularMarketOpen")
  last := pyOr (dget p "regularMarketPrice") (dget d "regularMarketPrice")
  low := pyOr (dget d "regularMarketDayLow") (dget p "regularMarketDayLow")
  high := pyOr (dget d "regularMarketDayHigh") (dget p "regularMarketDayHigh")
  pe := pyOr (dget d "trailingPE") (dget p "trailingPE")
  change := pyOr (dget d "regularMarketChange") (dget p "regularMarketChange")
  changePct := normalize_change_pct
    (pyOr (dget d "regularMarketChangePercent") (dget p "regularMarketChangePercent"))
  volume := pyOr (dget d "regularMarketVolume") (dget p "regularMarketVolume")
  volumeAverage := pyOr (dget d "averageVolume") (dget p "averageVolume")

/-- The all-`None` placeholder row appended for blank or unknown tickers
(`empty_fast` in `live_session_BEST.fetch_fast`). -/
def emptyFastRow : FastRow where
  ticker := .none
  close := .none
  openV := .none
  last := .none
  low := .none
  high := .none
  pe := .none
  change := .none
  changePct := .none
  volume := .none
  volumeAverage := .none

/-- The non-blank guard `if t` used throughout the scripts. -/
def nonBlank (t : String) : Bool := t ≠ ""

/-- `fetch_fast` from `live_session_BEST.py` (lines 165-238): filter out blank
tickers, return an empty frame when none remain, otherwise build one row per
distinct symbol from the `price` and `summary_detail` module responses and
rebuild the output in original ticker order, blanks (and symbols missing
from the row dict) becoming the all-`None` placeholder row. -/
def fetch_fast (tickers : List String) (raw_price raw_sd : RawResp) : List FastRow :=
  let syms := tickers.filter nonBlank
  if syms.isEmpty then
    []
  else
    let rows := syms.map (fun s => (s, buildFastRow s (get_dict raw_price s) (get_dict raw_sd s)))
    tickers.map (fun t =>
      if nonBlank t then
        match alookup rows t with
        | some r => r
        | Option.none => emptyFastRow
      else emptyFastRow)

/-- Spec-side definition, for comparison with the code (from the spec's
words, not the source): "first non-null wins" over an ordered candidate
list. -/
def specFirstNonNull : List PyVal → PyVal
  | [] => .none
  | v :: vs => if v = PyVal.none then specFirstNonNull vs else v

/-! ### Chunked fetch, retry and status derivation (`Stock_Data_A.py`) -/

/-- One call outcome of a YahooQuery module getter as `fetch_with_retry`
classifies it: a dict payload, a non-dict payload (recorded via `str(data)`),
or a raised exception (recorded via `str(e)`). -/
inductive CallOutcome where
  | dict (d : RawResp) : CallOutcome
  | nonDict (s : String) : CallOutcome
  | exn (e : String) : CallOutcome
deriving DecidableEq

/-- Whether the outcome is a dict (`isinstance(data, dict)`). -/
def CallOutcome.isDict : CallOutcome → Bool
  | .dict _ => true
  | _ => false

/-- The error text `fetch_with_retry` records for a failed attempt. -/
def CallOutcome.errorText : CallOutcome → String
  | .dict _ => ""
  | .nonDict s => s
  | .exn e => e

/-- The observable trace of one `fetch_with_retry` run: the returned data
(`None` on failure), the last-seen error, the number of getter calls made,
and the number of `time.sleep(RETRY_DELAY)` pauses taken. -/
structure RetryTrace where
  result : Option RawResp
  lastError : String
  calls : ℕ
  sleeps : ℕ
deriving DecidableEq

/-- The retry loop body of `fetch_with_retry` (`Stock_Data_A.py` lines
55-72) over an explicit list of remaining attempt indices: a dict result
returns immediately with an empty error; a non-dict result or an exception
updates `last_error` and, when further attempts remain, sleeps once before
retrying; an exhausted list returns the failure marker `(None, last_error)`. -/
def retryAux (getter : ℕ → CallOutcome) (lastErr : String) :
    List ℕ → RetryTrace
  | [] => ⟨Option.none, lastErr, 0, 0⟩
  | i :: rest =>
      match getter i with
      | .dict d => ⟨some d, "", 1, 0⟩
      | .nonDict s =>
          let t := retryAux getter s rest
          ⟨t.result, t.lastError, t.calls + 1, t.sleeps + (if rest.isEmpty then 0 else 1)⟩
      | .exn e =>
          let t := retryAux getter e rest
          ⟨t.result, t.lastError, t.calls + 1, t.sleeps + (if rest.isEmpty then 0 else 1)⟩

/-- `fetch_with_retry(label, getter)` from `Stock_Data_A.py`: attempts
`1 .. MAX_RETRIES` (indexed here from 0), initial `last_error = ""`. -/
def fetch_with_retry (getter : ℕ → CallOutcome) (maxRetries : ℕ) : RetryTrace :=
  retryAux getter "" (List.range maxRetries)

/-- `normalize_module(data, module_name, ticker, diagnostics)` from
`Stock_Data_A.py` (lines 75-82): contributes the per-ticker field dict (and
a coverage increment, `true` here) exactly when the module data is a dict
that holds a dict under the ticker; otherwise the module is missing for the
ticker and contributes the empty dict. -/
def normalize_module (data : Option RawResp) (t : String) : FieldMap × Bool :=
  match data with
  | some d =>
      match alookup d t with
      | some (some fm) => (fm, true)
      | _ => ([], false)
  | Option.none => ([], false)

/-- Whether a module contributed data for a ticker (the coverage increment
taken by `normalize_module`). -/
def moduleContributes (data : Option RawResp) (t : String) : Bool :=
  (normalize_module data t).2

/-- Python `row.update(d)` under association-list lookup: bindings of the
update shadow earlier bindings. -/
def dictUpdate (base upd : FieldMap) : FieldMap := upd ++ base

/-- One output row of the `Stock_Data_A.py` chunk loop. -/
structure ChunkRow where
  ticker : String
  fields : FieldMap
  dataCoverage : ℕ
  missingModules : String
  yahooError : String
  status : String
deriving DecidableEq

/-- The per-ticker body of the `Stock_Data_A.py` chunk loop (lines 98-129):
merge the four module dicts into the row in the order price, summary,
calendar, financial; record missing modules, fetch errors, and coverage; and
derive `Status` as OK when coverage is 4, PARTIAL when it is positive, and
NO_DATA otherwise. -/
def buildChunkRow (t : String)
    (priceData summaryData calendarData financialData : Option RawResp)
    (errPrice errSummary errCalendar errFinancial : String) : ChunkRow :=
  let pr := normalize_module priceData t
  let su := normalize_module summaryData t
  let ca := normalize_module calendarData t
  let fi := normalize_module financialData t
  let coverage := pr.2.toNat + su.2.toNat + ca.2.toNat + fi.2.toNat
  let missing :=
    (if pr.2 then [] else ["price"]) ++ (if su.2 then [] else ["summary"]) ++
      (if ca.2 then [] else ["calendar"]) ++ (if fi.2 then [] else ["financial"])
  let errors :=
    (if errPrice = "" then [] else ["price"]) ++
      (if errSummary = "" then [] else ["summary"]) ++
      (if errCalendar = "" then [] else ["calendar"]) ++
      (if errFinancial = "" then [] else ["financial"])
  let fields :=
    dictUpdate (dictUpdate (dictUpdate (dictUpdate [("Ticker", PyVal.str t)] pr.1) su.1) ca.1) fi.1
  { ticker := t
    fields := fields
    dataCoverage := coverage
    missingModules := String.intercalate "," missing
    yahooError := String.intercalate "," errors
    status := if coverage == 4 then "OK" else if coverage > 0 then "PARTIAL" else "NO_DATA" }

/-! ### Ticker loader (`Stock_Data_A.py`) and final cleanup
(`Stock_Data_A_RetrySafe.py`) -/

/-- Pandas `.astype(str)` on one cell: a null (NaN) cell becomes the string
`"nan"`, any other cell its string form. -/
def astypeStr : Option String → String
  | Option.none => "nan"
  | some s => s

/-- Python `str.strip` over the character list: drop leading and trailing
whitespace. -/
def stripChars (l : List Char) : List Char :=
  ((l.dropWhile Char.isWhitespace).reverse.dropWhile Char.isWhitespace).reverse

/-- Python `str.strip` on a string (pandas `.str.strip()` per cell). -/
def pyStrip (s : String) : String := String.mk (stripChars s.data)

/-- The ticker loader of `Stock_Data_A.py` (lines 33-43, identical in
`Stock_Data_A_RetrySafe.py` and `Stock_Data_complete404.py`):
`.astype(str).str.strip().replace("", pd.NA).dropna().tolist()` — stringify
each cell, trim it, then drop the cells that became empty. -/
def tickersLoad (cells : List (Option String)) : List String :=
  ((cells.map astypeStr).map pyStrip).filter nonBlank

/-- `drop_duplicates(subset=["Ticker"])` keeping the first occurrence,
restricted to the ticker key column. -/
def dedupFirstAux (seen : List String) : List String → List String
  | [] => []
  | x :: xs =>
      if x ∈ seen then dedupFirstAux seen xs
      else x :: dedupFirstAux (x :: seen) xs

/-- `drop_duplicates` with an empty seen set. -/
def dedupFirst (l : List String) : List String := dedupFirstAux [] l

/-- The final cleanup of `Stock_Data_A_RetrySafe.py` (lines 202-207) on the
ticker key column: `drop_duplicates(subset=["Ticker"]).sort_values("Ticker")`
(`sort_values` modelled as a stable sort by ticker). -/
def finalCleanup (l : List String) : List String :=
  List.insertionSort (fun a b => a ≤ b) (dedupFirst l)

/-! ### Per-ticker loop, history gap-fill and date normalization
(`update_asx_two.py`, `Stock_Data_complete404.py`, `GetYahooData.py`) -/

/-- The emptiness test the diagnostics use: `v in ("", None)`. -/
def isEmptyCell : PyVal → Bool
  | .str "" => true
  | .none => true
  | _ => false

/-- The daily-history frame as the gap-fill reads it: whether the `Open` and
`Volume` columns exist, and their cell series (with NaN as `Option.none`,
removed by `dropna`). -/
structure HistDF where
  hasOpen : Bool
  opens : List (Option ℚ)
  hasVolume : Bool
  vols : List (Option ℚ)
deriving DecidableEq

/-- Pandas `.dropna()` on a numeric series. -/
def dropna (l : List (Option ℚ)) : List ℚ := l.filterMap id

/-- Pandas `.iloc[-1]` on a non-empty series (`None` only if empty, which
the callers guard against). -/
def seriesLast (l : List ℚ) : PyVal :=
  match l.getLast? with
  | some q => .num q
  | Option.none => .none

/-- Pandas `.tail(n)`: the last `n` elements. -/
def seriesTail (n : ℕ) (l : List ℚ) : List ℚ := l.drop (l.length - n)

/-- Pandas `.mean()` of a non-empty series. -/
def seriesMean (l : List ℚ) : ℚ := l.sum / l.length

/-- `AVG_VOLUME_DAYS` from `update_asx_two.py`. -/
def AVG_VOLUME_DAYS : ℕ := 7

/-- The daily-history gap-fill of `update_asx_two.py` (lines 176-190) on the
`Open`, `Volume` and `AverageVolume` cells: a failed or empty history leaves
the row unchanged; otherwise `Open` is back-filled only when falsy, `Volume`
is `row["Volume"] or vol.iloc[-1]`, and `AverageVolume` is set to the mean
of the last `AVG_VOLUME_DAYS` volumes. -/
def historyGapFill (openV volV avgV : PyVal) (hist : Option HistDF) :
    PyVal × PyVal × PyVal :=
  match hist with
  | Option.none => (openV, volV, avgV)
  | some h =>
      let openV2 :=
        if openV.truthy = false ∧ h.hasOpen = true then
          let opens := dropna h.opens
          if opens.isEmpty then openV else seriesLast opens
        else openV
      let volPair :=
        if h.hasVolume then
          let vol := dropna h.vols
          if vol.isEmpty then (volV, avgV)
          else (pyOr volV (seriesLast vol), PyVal.num (seriesMean (seriesTail AVG_VOLUME_DAYS vol)))
        else (volV, avgV)
      (openV2, volPair.1, volPair.2)

/-- The `AverageVolume` fallback of `update_asx_two.py` (lines 192-197):
when the cell is still falsy, fill it from the full-info dict
(`full.get("averageVolume") or full.get("averageVolume10days") or ""`). -/
def avgVolumeFallback (avgV : PyVal) (full : FieldMap) : PyVal :=
  if avgV.truthy then avgV
  else pyOr (pyOr (dget full "averageVolume") (dget full "averageVolume10days")) (.str "")

/-- The earnings-date HTML fallback of `GetYahooData.py` (lines 88-90): the
scrape result is used only when the API-provided string is empty. -/
def earningsDateWithFallback (primary scraped : String) : String :=
  if primary = "" then scraped else primary

/-- One output row of the `update_asx_two.py` per-ticker loop. -/
structure AsxRow where
  ticker : String
  status : String
  missingFields : String
  fields : FieldMap
deriving DecidableEq

/-- The diagnostics step of the `update_asx_two.py` try-body (lines 213-217):
count the row entries (including the `Ticker`, `Status` and `MissingFields`
slots themselves) whose value is in `("", None)`; more than 3 of them
downgrade the status to PARTIAL and record the missing field names. -/
def diagnoseRow (t : String) (fs : FieldMap) : AsxRow :=
  let items : FieldMap :=
    [("Ticker", PyVal.str t), ("Status", PyVal.str "OK"), ("MissingFields", PyVal.str "")] ++ fs
  let missing := (items.filter (fun kv => isEmptyCell kv.2)).map Prod.fst
  if missing.length > 3 then
    { ticker := t, status := "PARTIAL", missingFields := String.intercalate "," missing, fields := fs }
  else
    { ticker := t, status := "OK", missingFields := "", fields := fs }

/-- The per-ticker try/except of `update_asx_two.py` (lines 95-223): a
successful fetch yields the assembled field map and goes through the
diagnostics step; a raised exception leaves the fields set so far, sets
`Status = "NO_DATA"` and records `str(e)` in `MissingFields`. -/
def processTicker (t : String) (outcome : Except (String × FieldMap) FieldMap) : AsxRow :=
  match outcome with
  | .ok fs => diagnoseRow t fs
  | .error ep => { ticker := t, status := "NO_DATA", missingFields := ep.1, fields := ep.2 }

/-- The whole per-ticker loop: one appended row per ticker, in order,
whatever each per-ticker fetch does. -/
def runPerTickerLoop (tickers : List String)
    (outcome : String → Except (String × FieldMap) FieldMap) : List AsxRow :=
  tickers.map (fun t => processTicker t (outcome t))

/-- The `1e12` epoch-milliseconds threshold of
`Stock_Data_complete404.py`. -/
def msThreshold : ℚ := 1000000000000

/-- `normalize_date` from `Stock_Data_complete404.py` (lines 201-212), with
datetimes represented as epoch seconds and `pd.NaT` as `Option.none`; string
parsing (`pd.to_datetime(..., errors="coerce")`) is abstracted by `parse`,
which returns `Option.none` for unparseable strings. Empty, `None` and
numeric-zero inputs map to `NaT`; a numeric at or above `1e12` is epoch
milliseconds, a smaller numeric epoch seconds. -/
def normalize_date (parse : String → Option ℚ) (x : PyVal) : Option ℚ :=
  match x with
  | .str s => if s = "" then Option.none else parse s
  | .none => Option.none
  | .num q =>
      if q = 0 then Option.none
      else some (if msThreshold ≤ q then q / 1000 else q)

/-- `normalize_time` from `Stock_Data_complete404.py` (lines 179-195),
restricted to the scalar inputs `PyVal` models (the `Timestamp`/`datetime`
branches only re-zone an already-parsed instant); same representation as
`normalize_date`. Numerics have no zero guard here. -/
def normalize_time (parse : String → Option ℚ) (x : PyVal) : Option ℚ :=
  match x with
  | .num q => some (if msThreshold ≤ q then q / 1000 else q)
  | .str s => parse s
  | .none => Option.none

/-- Spec-side numeric rule, for comparison with the code (from the claim's
words, not the source): every numeric timestamp is converted, `>= 1e12`
meaning epoch milliseconds and smaller meaning epoch seconds. -/
def specDateNumeric (q : ℚ) : Option ℚ :=
  some (if msThreshold ≤ q then q / 1000 else q)

/-! ### Scrape-side percent parser (`src/live_session_SUPER.py`) -/

/-- Decimal value of a digit character. -/
def digitVal (c : Char) : ℕ := c.toNat - 48

/-- Value of a digit run (the regex group read left to right). -/
def digitsToNat (l : List Char) : ℕ :=
  l.foldl (fun acc c => acc * 10 + digitVal c) 0

/-- Value of the regex match `[0-9]+(?:\.[0-9]+)?` anchored at the head of
`l` (the head is known to be a digit): the integer digit run, optionally
followed by a dot and a fractional digit run. -/
def numberValueAt (l : List Char) : ℚ :=
  let ip := l.takeWhile Char.isDigit
  let rest := l.dropWhile Char.isDigit
  let fp := (rest.drop 1).takeWhile Char.isDigit
  if rest.head? = some '.' ∧ fp.isEmpty = false then
    (digitsToNat ip : ℚ) + (digitsToNat fp : ℚ) / (10 : ℚ) ^ fp.length
  else (digitsToNat ip : ℚ)

/-- `re.search(r"([0-9]+(?:\.[0-9]+)?)", s)`: the leftmost match of an
unsigned decimal number, as its rational value; `Option.none` when the string
holds no digit. A sign character is never part of the match. -/
def reSearchNumber : List Char → Option ℚ
  | [] => Option.none
  | c :: cs => if c.isDigit then some (numberValueAt (c :: cs)) else reSearchNumber cs

/-- `_parse_percent_to_fraction` from `src/live_session_SUPER.py` (lines
177-193): a falsy input (`None`, `""`, numeric 0) yields `None`; a numeric
input is returned as-is (assumed already a fraction); a string is searched
for an unsigned number whose value is divided by 100. -/
def _parse_percent_to_fraction (v : PyVal) : Option ℚ :=
  if v.truthy = false then Option.none
  else
    match v with
    | .num q => some q
    | .str s => (reSearchNumber s.data).map (fun q => q / 100)
    | .none => Option.none

theorem truthy_num {q : ℚ} (h : q ≠ 0) : (PyVal.num q).truthy = true := by
  simp [PyVal.truthy, h]

theorem not_truthy_num_zero : (PyVal.num 0).truthy = false := by
  simp [PyVal.truthy]

theorem pyOr_of_truthy {a : PyVal} (b : PyVal) (h : a.truthy = true) :
    pyOr a b = a := by
  simp [pyOr, h]

theorem pyOr_of_not_truthy {a : PyVal} (b : PyVal) (h : a.truthy = false) :
    pyOr a b = b := by
  simp [pyOr, h]

theorem alookup_map_self {α : Type} (f : String → α) :
    ∀ (l : List String) (s : String), s ∈ l →
      alookup (l.map (fun x => (x, f x))) s = some (f s) := by
  intro l
  induction l with
  | nil => intro s hs; cases hs
  | cons a l ih =>
      intro s hs
      simp only [List.map_cons, alookup]
      by_cases h : a = s
      · subst h; simp
      · simp only [h, if_false]
        rcases List.mem_cons.mp hs with h1 | h2
        · exact absurd h1.symm h
        · exact ih s h2

/-- C1: the claim "the normalize/fetch stage returns exactly N output rows"
fails when every input symbol is blank: `fetch_fast` returns an empty frame
(zero rows) for the one-element all-blank input. -/
theorem claim1_counterexample :
    (fetch_fast [""] [] []).length ≠ ([""] : List String).length := by decide

/-- C1 (amended): when at least one input symbol is non-blank, `fetch_fast`
returns exactly N rows in input order, row i carrying the ticker of
`symbols[i]` (`None` when `symbols[i]` is blank). -/
theorem claim1_fetch_fast_row_alignment (tickers : List String)
    (raw_price raw_sd : RawResp) (h : tickers.filter nonBlank ≠ []) :
    (fetch_fast tickers raw_price raw_sd).length = tickers.length ∧
      (fetch_fast tickers raw_price raw_sd).map FastRow.ticker
        = tickers.map (fun t => if nonBlank t then PyVal.str t else PyVal.none) := by
  have hne : (tickers.filter nonBlank).isEmpty = false := by
    cases hf : tickers.filter nonBlank with
    | nil => exact absurd hf h
    | cons a l => rfl
  unfold fetch_fast
  simp only [hne, Bool.false_eq_true, if_false]
  constructor
  · exact List.length_map _ _
  · rw [List.map_map]
    apply List.map_congr_left
    intro t ht
    by_cases htb : nonBlank t = true
    · have hmem : t ∈ tickers.filter nonBlank := List.mem_filter.mpr ⟨ht, htb⟩
      have := alookup_map_self
        (fun s => buildFastRow s (get_dict raw_price s) (get_dict raw_sd s))
        (tickers.filter nonBlank) t hmem
      simp only [Function.comp_apply, htb, if_true, this]
      rfl
    · simp only [Function.comp_apply, htb]
      rfl

/-- C1 witness: the amended alignment theorem at the concrete input
`["AAA", ""]` with empty module responses. -/
theorem claim1_witness :
    (fetch_fast ["AAA", ""] [] []).length = (["AAA", ""] : List String).length ∧
      (fetch_fast ["AAA", ""] [] []).map FastRow.ticker
        = (["AAA", ""] : List String).map
            (fun t => if nonBlank t then PyVal.str t else PyVal.none) :=
  claim1_fetch_fast_row_alignment ["AAA", ""] [] [] (by decide)

/-- C2: the claim "the first non-null candidate wins" fails on the code: the
merge uses Python `or`, so a non-null but zero-valued candidate from the
summary module is skipped in favour of the price module's value. -/
theorem claim2_counterexample :
    (buildFastRow "AAA" [("regularMarketPreviousClose", PyVal.num 100)]
        [("regularMarketPreviousClose", PyVal.num 0)]).close
      ≠ specFirstNonNull
          [dget [("regularMarketPreviousClose", PyVal.num 0)] "regularMarketPreviousClose",
           dget [("regularMarketPreviousClose", PyVal.num 100)] "regularMarketPreviousClose"] := by
  decide

/-- C2 (amended): in `fetch_fast` the first *truthy* candidate in the fixed
(summary, price) order wins; a null, zero or empty summary candidate is
skipped in favour of the price candidate. With summary Close = 101.5 and
price Close = 100.0 the output Close is 101.5. -/
theorem claim2_first_truthy_wins (s : String) (p d : FieldMap) :
    ((dget d "regularMarketPreviousClose").truthy = true →
        (buildFastRow s p d).close = dget d "regularMarketPreviousClose") ∧
      ((dget d "regularMarketPreviousClose").truthy = false →
        (buildFastRow s p d).close = dget p "regularMarketPreviousClose") ∧
      (buildFastRow "AAA" [("regularMarketPreviousClose", PyVal.num 100)]
          [("regularMarketPreviousClose", PyVal.num (203 / 2))]).close
        = PyVal.num (203 / 2) := by
  refine ⟨fun h => ?_, fun h => ?_, ?_⟩
  · exact pyOr_of_truthy _ h
  · exact pyOr_of_not_truthy _ h
  · show pyOr (dget [("regularMarketPreviousClose", PyVal.num (203 / 2))] _) _ = _
    rw [show dget [("regularMarketPreviousClose", PyVal.num (203 / 2))]
          "regularMarketPreviousClose" = PyVal.num (203 / 2) from rfl,
        pyOr_of_truthy _ (truthy_num (by norm_num))]

/-- C2 witness: the first-truthy-wins theorem applied at summary
Close = 101.5 (truthy), price Close = 100.0. -/
theorem claim2_witness :
    (buildFastRow "AAA" [("regularMarketPreviousClose", PyVal.num 100)]
        [("regularMarketPreviousClose", PyVal.num (203 / 2))]).close
      = dget [("regularMarketPreviousClose", PyVal.num (203 / 2))]
          "regularMarketPreviousClose" :=
  (claim2_first_truthy_wins "AAA" [("regularMarketPreviousClose", PyVal.num 100)]
      [("regularMarketPreviousClose", PyVal.num (203 / 2))]).1
    (truthy_num (by norm_num))

/-- C5: percent unit normalization returns x unchanged when |x| ≤ 1 and
x / 100 when |x| > 1, independent of sign; 0.023 stays 0.023, 2.3 becomes
0.023, and -150.0 becomes -1.5. -/
theorem claim5_percent_normalization (q : ℚ) :
    (|q| ≤ 1 → normalize_change_pct (.num q) = .num q) ∧
      (1 < |q| → normalize_change_pct (.num q) = .num (q / 100)) ∧
      normalize_change_pct (.num (23 / 1000)) = .num (23 / 1000) ∧
      normalize_change_pct (.num (23 / 10)) = .num (23 / 1000) ∧
      normalize_change_pct (.num (-150)) = .num (-3 / 2) := by
  have habs : ∀ r : ℚ, 0 ≤ r → |r| = r := fun r hr => abs_of_nonneg hr
  refine ⟨fun h => ?_, fun h => ?_, ?_, ?_, ?_⟩
  · simp [normalize_change_pct, not_lt.mpr h]
  · simp [normalize_change_pct, h]
  · have : ¬ (1 < |(23 / 1000 : ℚ)|) := by
      rw [habs _ (by norm_num)]; norm_num
    simp [normalize_change_pct, this]
  · have : (1 : ℚ) < |(23 / 10 : ℚ)| := by
      rw [habs _ (by norm_num)]; norm_num
    simp only [normalize_change_pct, this, if_true, PyVal.num.injEq]
    norm_num
  · have : (1 : ℚ) < |(-150 : ℚ)| := by
      rw [abs_of_neg (by norm_num)]; norm_num
    simp only [normalize_change_pct, this, if_true, PyVal.num.injEq]
    norm_num

/-- C5 witness: the normalization theorem applied at the raw value 2.3,
whose magnitude exceeds 1. -/
theorem claim5_witness :
    normalize_change_pct (.num (23 / 10)) = .num (23 / 10 / 100) :=
  (claim5_percent_normalization (23 / 10)).2.1
    (by rw [abs_of_nonneg (by norm_num)]; norm_num)

theorem buildChunkRow_status_eq (t : String)
    (pd sd cd fd : Option RawResp) (ep es ec ef : String) :
    (buildChunkRow t pd sd cd fd ep es ec ef).status =
      (let cov := (moduleContributes pd t).toNat + (moduleContributes sd t).toNat +
        (moduleContributes cd t).toNat + (moduleContributes fd t).toNat
       if cov == 4 then "OK" else if cov > 0 then "PARTIAL" else "NO_DATA") := rfl

/-- C3: for a non-blank symbol the `Stock_Data_A.py` chunk loop classifies
status purely from module coverage: all four requested modules contributed
data for the symbol iff Status is OK, none contributed (including every
fetch raising) iff Status is NO_DATA, and some-but-not-all iff PARTIAL. -/
theorem claim3_status_classification (t : String)
    (pd sd cd fd : Option RawResp) (ep es ec ef : String) :
    ((buildChunkRow t pd sd cd fd ep es ec ef).status = "OK" ↔
        (moduleContributes pd t = true ∧ moduleContributes sd t = true ∧
          moduleContributes cd t = true ∧ moduleContributes fd t = true)) ∧
      ((buildChunkRow t pd sd cd fd ep es ec ef).status = "NO_DATA" ↔
        (moduleContributes pd t = false ∧ moduleContributes sd t = false ∧
          moduleContributes cd t = false ∧ moduleContributes fd t = false)) ∧
      ((buildChunkRow t pd sd cd fd ep es ec ef).status = "PARTIAL" ↔
        ((moduleContributes pd t = true ∨ moduleContributes sd t = true ∨
            moduleContributes cd t = true ∨ moduleContributes fd t = true) ∧
          ¬(moduleContributes pd t = true ∧ moduleContributes sd t = true ∧
              moduleContributes cd t = true ∧ moduleContributes fd t = true))) := by
  rw [buildChunkRow_status_eq]
  cases hp : moduleContributes pd t <;> cases hs : moduleContributes sd t <;>
    cases hc : moduleContributes cd t <;> cases hf : moduleContributes fd t <;>
      decide

/-- C3 witness: a symbol present in 2 of the 4 modules (price and summary
contribute, calendar missing the ticker, financial fetch failed) is
classified PARTIAL. -/
theorem claim3_witness :
    (buildChunkRow "AAA" (some [("AAA", some [("regularMarketPrice", PyVal.num 7)])])
          (some [("AAA", some [])]) (some []) Option.none "" "" "" "err").status
      = "PARTIAL" :=
  ((claim3_status_classification "AAA"
        (some [("AAA", some [("regularMarketPrice", PyVal.num 7)])])
        (some [("AAA", some [])]) (some []) Option.none "" "" "" "err").2.2).mpr
    (by decide)

theorem retryAux_result_all_fail (getter : ℕ → CallOutcome)
    (hfail : ∀ n, (getter n).isDict = false) :
    ∀ (l : List ℕ) (e : String), (retryAux getter e l).result = Option.none := by
  intro l
  induction l with
  | nil => intro e; rfl
  | cons i rest ih =>
      intro e
      cases hg : getter i with
      | dict d =>
          have := hfail i
          rw [hg] at this
          exact absurd this (by simp [CallOutcome.isDict])
      | nonDict s => simp [retryAux, hg, ih s]
      | exn er => simp [retryAux, hg, ih er]

theorem retryAux_calls_all_fail (getter : ℕ → CallOutcome)
    (hfail : ∀ n, (getter n).isDict = false) :
    ∀ (l : List ℕ) (e : String), (retryAux getter e l).calls = l.length := by
  intro l
  induction l with
  | nil => intro e; rfl
  | cons i rest ih =>
      intro e
      cases hg : getter i with
      | dict d =>
          have := hfail i
          rw [hg] at this
          exact absurd this (by simp [CallOutcome.isDict])
      | nonDict s => simp [retryAux, hg, ih s]
      | exn er => simp [retryAux, hg, ih er]

theorem retryAux_sleeps_all_fail (getter : ℕ → CallOutcome)
    (hfail : ∀ n, (getter n).isDict = false) :
    ∀ (l : List ℕ) (e : String), (retryAux getter e l).sleeps = l.length - 1 := by
  intro l
  induction l with
  | nil => intro e; rfl
  | cons i rest ih =>
      intro e
      cases hg : getter i with
      | dict d =>
          have := hfail i
          rw [hg] at this
          exact absurd this (by simp [CallOutcome.isDict])
      | nonDict s =>
          simp only [retryAux, hg, ih s]
          cases rest with
          | nil => rfl
          | cons j r2 => simp [List.isEmpty]
      | exn er =>
          simp only [retryAux, hg, ih er]
          cases rest with
          | nil => rfl
          | cons j r2 => simp [List.isEmpty]

theorem retryAux_lastError_all_fail (getter : ℕ → CallOutcome)
    (hfail : ∀ n, (getter n).isDict = false) :
    ∀ (l : List ℕ) (e : String), (retryAux getter e l).lastError =
      (match l.getLast? with
       | some i => (getter i).errorText
       | Option.none => e) := by
  intro l
  induction l with
  | nil => intro e; rfl
  | cons i rest ih =>
      intro e
      cases hg : getter i with
      | dict d =>
          have := hfail i
          rw [hg] at this
          exact absurd this (by simp [CallOutcome.isDict])
      | nonDict s =>
          simp only [retryAux, hg, ih s]
          cases rest with
          | nil => simp [hg, CallOutcome.errorText]
          | cons j r2 =>
              simp only [List.getLast?_cons_cons]
              rcases hlast : (j :: r2).getLast? with _ | x
              · rw [List.getLast?_eq_none_iff] at hlast
                exact absurd hlast (by simp)
              · rfl
      | exn er =>
          simp only [retryAux, hg, ih er]
          cases rest with
          | nil => simp [hg, CallOutcome.errorText]
          | cons j r2 =>
              simp only [List.getLast?_cons_cons]
              rcases hlast : (j :: r2).getLast? with _ | x
              · rw [List.getLast?_eq_none_iff] at hlast
                exact absurd hlast (by simp)
              · rfl

theorem range_getLast? (m : ℕ) (h : 1 ≤ m) :
    (List.range m).getLast? = some (m - 1) := by
  cases m with
  | zero => exact absurd h (by norm_num)
  | succ k =>
      rw [List.range_succ]
      simp [List.getLast?_concat]

/-- C4: when every attempt of a module getter fails to return a mapping,
`fetch_with_retry` calls the getter exactly `max_retries` times, sleeps
between consecutive attempts (`max_retries - 1` pauses), terminates, and
returns the failure marker `(None, last_error)` carrying the error text of
the last attempt. -/
theorem claim4_retry_terminates (getter : ℕ → CallOutcome) (maxRetries : ℕ)
    (hfail : ∀ n, (getter n).isDict = false) :
    (fetch_with_retry getter maxRetries).result = Option.none ∧
      (fetch_with_retry getter maxRetries).calls = maxRetries ∧
      (fetch_with_retry getter maxRetries).sleeps = maxRetries - 1 ∧
      (1 ≤ maxRetries →
        (fetch_with_retry getter maxRetries).lastError
          = (getter (maxRetries - 1)).errorText) := by
  refine ⟨retryAux_result_all_fail getter hfail _ _, ?_, ?_, fun hm => ?_⟩
  · rw [fetch_with_retry, retryAux_calls_all_fail getter hfail]
    exact List.length_range maxRetries
  · rw [fetch_with_retry, retryAux_sleeps_all_fail getter hfail]
    rw [List.length_range]
  · rw [fetch_with_retry, retryAux_lastError_all_fail getter hfail,
      range_getLast? maxRetries hm]

/-- C4 witness: a getter that always raises, with `max_retries = 2`: two
calls, one sleep, no data, last cause recorded. -/
theorem claim4_witness :
    (fetch_with_retry (fun _ => CallOutcome.exn "boom") 2).result = Option.none ∧
      (fetch_with_retry (fun _ => CallOutcome.exn "boom") 2).calls = 2 ∧
      (fetch_with_retry (fun _ => CallOutcome.exn "boom") 2).sleeps = 1 ∧
      (fetch_with_retry (fun _ => CallOutcome.exn "boom") 2).lastError = "boom" :=
  have h := claim4_retry_terminates (fun _ => CallOutcome.exn "boom") 2 (fun _ => rfl)
  ⟨h.1, h.2.1, h.2.2.1, h.2.2.2 (by norm_num)⟩

/-- C6: the claim "a field populated with a non-empty value is never
overwritten by the enricher" fails on the history gap-fill of
`update_asx_two.py`: a `Volume` cell holding the populated, non-empty value
0 (which the row's own emptiness test `v in ("", None)` does not treat as
missing) is replaced by the last history volume. -/
theorem claim6_counterexample :
    (historyGapFill (.str "") (.num 0) (.str "")
        (some ⟨true, [], true, [some 500]⟩)).2.1 = PyVal.num 500 ∧
      isEmptyCell (PyVal.num 0) = false ∧ PyVal.num 0 ≠ PyVal.num 500 := by
  decide

/-- C6 (amended): the enrichment steps never overwrite a *truthy* field
value: the history gap-fill preserves truthy `Open` and `Volume` cells, the
`AverageVolume` fallback preserves a truthy cell, and the earnings-date HTML
fallback preserves a non-empty primary string; only falsy values (empty,
`None` — or the number 0, which is falsy though not empty) can be
replaced. -/
theorem claim6_no_overwrite_of_truthy (o v a : PyVal) (hist : Option HistDF)
    (full : FieldMap) (p f : String) :
    (o.truthy = true → (historyGapFill o v a hist).1 = o) ∧
      (v.truthy = true → (historyGapFill o v a hist).2.1 = v) ∧
      (a.truthy = true → avgVolumeFallback a full = a) ∧
      (p ≠ "" → earningsDateWithFallback p f = p) := by
  refine ⟨fun h => ?_, fun h => ?_, fun h => ?_, fun h => ?_⟩
  · cases hist with
    | none => rfl
    | some hdf => simp [historyGapFill, h]
  · cases hist with
    | none => rfl
    | some hdf =>
        simp only [historyGapFill]
        cases hhv : hdf.hasVolume with
        | false => simp
        | true =>
            simp only [if_true]
            by_cases he : (dropna hdf.vols).isEmpty
            · simp [he]
            · simp [he, pyOr_of_truthy _ h]
  · simp [avgVolumeFallback, h]
  · simp [earningsDateWithFallback, h]

/-- C6 witness: truthy values `Open = 3`, `Volume = 7`,
`AverageVolume = 9`, `targetMeanPrice`-style primary string `"12.5"` all
survive enrichment against a history frame and a secondary fetch that would
offer different values. -/
theorem claim6_witness :
    ((PyVal.num 3).truthy = true →
        (historyGapFill (PyVal.num 3) (PyVal.num 7) (PyVal.num 9)
            (some ⟨true, [some 4], true, [some 500]⟩)).1 = PyVal.num 3) ∧
      ((PyVal.num 7).truthy = true →
        (historyGapFill (PyVal.num 3) (PyVal.num 7) (PyVal.num 9)
            (some ⟨true, [some 4], true, [some 500]⟩)).2.1 = PyVal.num 7) ∧
      (¬"12.5" = "" → earningsDateWithFallback "12.5" "99.0" = "12.5") ∧
      (historyGapFill (PyVal.num 3) (PyVal.num 7) (PyVal.num 9)
          (some ⟨true, [some 4], true, [some 500]⟩)).1 = PyVal.num 3 ∧
      (historyGapFill (PyVal.num 3) (PyVal.num 7) (PyVal.num 9)
          (some ⟨true, [some 4], true, [some 500]⟩)).2.1 = PyVal.num 7 ∧
      earningsDateWithFallback "12.5" "99.0" = "12.5" :=
  have h := claim6_no_overwrite_of_truthy (PyVal.num 3) (PyVal.num 7) (PyVal.num 9)
    (some ⟨true, [some 4], true, [some 500]⟩) [] "12.5" "99.0"
  ⟨h.1, h.2.1, h.2.2.2,
    h.1 (by decide), h.2.1 (by decide), h.2.2.2 (by decide)⟩

/-- C8: the per-ticker loop of `update_asx_two.py` emits one row per ticker
in order; a ticker whose fetch raises still yields a row with Status
NO_DATA and the exception text recorded in `MissingFields`, and the
remaining tickers are processed unaffected. -/
theorem claim8_failures_become_rows (tickers : List String)
    (outcome : String → Except (String × FieldMap) FieldMap) :
    (runPerTickerLoop tickers outcome).length = tickers.length ∧
      ∀ (i : ℕ) (t e : String) (pf : FieldMap),
        tickers[i]? = some t → outcome t = .error (e, pf) →
          (runPerTickerLoop tickers outcome)[i]? =
            some { ticker := t, status := "NO_DATA", missingFields := e, fields := pf } := by
  constructor
  · exact List.length_map _ _
  · intro i t e pf hti hout
    rw [runPerTickerLoop, List.getElem?_map, hti]
    simp [processTicker, hout]

/-- C8 witness: a two-ticker run where the first ticker's fetch raises
`"boom"`: both rows exist, the first is a NO_DATA row carrying the error. -/
theorem claim8_witness :
    (runPerTickerLoop ["AAA", "BBB"]
        (fun t => if t = "AAA" then .error ("boom", []) else .ok [])).length = 2 ∧
      (runPerTickerLoop ["AAA", "BBB"]
          (fun t => if t = "AAA" then .error ("boom", []) else .ok []))[0]? =
        some { ticker := "AAA", status := "NO_DATA", missingFields := "boom", fields := [] } :=
  have h := claim8_failures_become_rows ["AAA", "BBB"]
    (fun t => if t = "AAA" then .error ("boom", []) else .ok [])
  ⟨h.1, h.2 0 "AAA" "boom" [] rfl (by norm_num)⟩

/-- C7: the claim "the loader returns the input column's rows exactly, with
blanks kept as placeholders and count preserved" fails on the
`Stock_Data_A.py` loader: the blank middle cell of a 3-cell column is
dropped, leaving 2 tickers. -/
theorem claim7_counterexample :
    tickersLoad [some "AAA", some "", some "BBB"] = ["AAA", "BBB"] ∧
      ([some "AAA", some "", some "BBB"] : List (Option String)).length = 3 ∧
      (["AAA", "BBB"] : List String).length ≠ 3 := by
  decide

theorem tickersLoad_length_acc :
    ∀ cells : List (Option String),
      (tickersLoad cells).length +
          (cells.countP fun c => pyStrip (astypeStr c) == "") = cells.length := by
  intro cells
  induction cells with
  | nil => rfl
  | cons c cs ih =>
      have hload : tickersLoad (c :: cs) =
          if nonBlank (pyStrip (astypeStr c)) = true then
            pyStrip (astypeStr c) :: tickersLoad cs
          else tickersLoad cs := by
        simp [tickersLoad, List.filter_cons]
      rw [hload, List.countP_cons]
      by_cases h : pyStrip (astypeStr c) = ""
      · rw [if_neg (by simp [nonBlank, h]), if_pos (by simp [h]), List.length_cons]
        omega
      · rw [if_pos (by simp [nonBlank, h]), if_neg (by simp [h]), List.length_cons,
          List.length_cons]
        omega

theorem dedupFirstAux_nodup :
    ∀ (l : List String) (seen : List String),
      (dedupFirstAux seen l).Nodup ∧ ∀ x ∈ dedupFirstAux seen l, x ∉ seen := by
  intro l
  induction l with
  | nil => intro seen; exact ⟨List.nodup_nil, by intro x hx; cases hx⟩
  | cons a as ih =>
      intro seen
      by_cases h : a ∈ seen
      · simpa [dedupFirstAux, h] using ih seen
      · simp only [dedupFirstAux, h, if_false]
        obtain ⟨hnd, hns⟩ := ih (a :: seen)
        refine ⟨List.nodup_cons.mpr ⟨fun hmem => ?_, hnd⟩, ?_⟩
        · exact hns a hmem (List.mem_cons_self a seen)
        · intro x hx
          rcases List.mem_cons.mp hx with h1 | h2
          · subst h1; exact h
          · intro hxs
            exact hns x h2 (List.mem_cons_of_mem a hxs)

/-- C7 (amended): the `Stock_Data_A.py` loader keeps the non-blank cells
only: it stringifies and trims each cell, drops the cells that became empty
(so the output count is the input count minus the blank count), preserves
the relative order and duplicates of the remaining cells (no sorting, no
dedup at this stage), and the RetrySafe final cleanup then deduplicates the
rows by ticker and sorts them by ticker, so the final sequence is in
sorted-ticker order rather than input order. -/
theorem claim7_loader_and_cleanup (cells : List (Option String)) (ts : List String) :
    ((tickersLoad cells).length +
        (cells.countP fun c => pyStrip (astypeStr c) == "") = cells.length) ∧
      List.Sublist (tickersLoad cells) ((cells.map astypeStr).map pyStrip) ∧
      tickersLoad [some "A", some "A"] = ["A", "A"] ∧
      (finalCleanup ts).Nodup ∧
      List.Sorted (fun a b => a ≤ b) (finalCleanup ts) := by
  refine ⟨tickersLoad_length_acc cells, List.filter_sublist _, by decide, ?_, ?_⟩
  · exact (List.perm_insertionSort (fun a b => a ≤ b) (dedupFirst ts)).nodup_iff.mpr
      (dedupFirstAux_nodup ts []).1
  · exact List.sorted_insertionSort (fun a b => a ≤ b) (dedupFirst ts)

/-- C9: the claim "every numeric below 1e12 is interpreted as epoch seconds
and converted to a calendar date" fails on `normalize_date`: the numeric 0
(a parseable epoch) is mapped to `NaT` by the explicit `x == 0` guard, not
converted. -/
theorem claim9_counterexample :
    normalize_date (fun _ => Option.none) (PyVal.num 0) ≠ specDateNumeric 0 := by
  decide

/-- C9 (amended): `normalize_date` converts a nonzero numeric at or above
1e12 as epoch milliseconds and a nonzero numeric below 1e12 as epoch
seconds, while numeric 0, `None` and `""` map to empty; a string maps to
whatever the coercing parser yields (`NaT` when unparseable).
`normalize_time` has no zero guard: it converts every numeric by the same
magnitude rule, maps strings through the coercing parser and `None` to
`NaT`. Both are total: no input raises. -/
theorem claim9_date_time_normalization (parse : String → Option ℚ)
    (q : ℚ) (s : String) :
    (q ≠ 0 → msThreshold ≤ q → normalize_date parse (.num q) = some (q / 1000)) ∧
      (q ≠ 0 → q < msThreshold → normalize_date parse (.num q) = some q) ∧
      normalize_date parse (.num 0) = Option.none ∧
      normalize_date parse .none = Option.none ∧
      normalize_date parse (.str "") = Option.none ∧
      (s ≠ "" → normalize_date parse (.str s) = parse s) ∧
      (msThreshold ≤ q → normalize_time parse (.num q) = some (q / 1000)) ∧
      (q < msThreshold → normalize_time parse (.num q) = some q) ∧
      normalize_time parse (.str s) = parse s ∧
      normalize_time parse .none = Option.none := by
  refine ⟨fun h0 hms => ?_, fun h0 hs => ?_, by simp [normalize_date], rfl, by
    simp [normalize_date], fun hne => ?_, fun hms => ?_, fun hs => ?_, rfl, rfl⟩
  · simp [normalize_date, h0, hms]
  · simp [normalize_date, h0, not_le.mpr hs]
  · simp [normalize_date, hne]
  · simp [normalize_time, hms]
  · simp [normalize_time, not_le.mpr hs]

/-- C9 witness: the amended normalization at the millisecond-scale numeric
2e12 and the second-scale numeric 5. -/
theorem claim9_witness :
    normalize_date (fun _ => Option.none) (PyVal.num 2000000000000)
        = some (2000000000000 / 1000) ∧
      normalize_date (fun _ => Option.none) (PyVal.num 5) = some 5 :=
  ⟨(claim9_date_time_normalization (fun _ => Option.none) 2000000000000 "x").1
      (by norm_num) (by rw [msThreshold]; norm_num),
    (claim9_date_time_normalization (fun _ => Option.none) 5 "x").2.1
      (by norm_num) (by rw [msThreshold]; norm_num)⟩

/-- C10: the claim "a numeric input is returned unchanged" fails at the
numeric 0: the falsy guard `if not s` returns `None` before the numeric
branch is reached. -/
theorem claim10_counterexample :
    _parse_percent_to_fraction (PyVal.num 0) = Option.none ∧
      (Option.none : Option ℚ) ≠ some 0 := by
  decide

theorem numberValueAt_nonneg (l : List Char) : 0 ≤ numberValueAt l := by
  rw [numberValueAt]
  split
  · positivity
  · positivity

theorem reSearchNumber_nonneg :
    ∀ (l : List Char) (q : ℚ), reSearchNumber l = some q → 0 ≤ q := by
  intro l
  induction l with
  | nil => intro q h; simp [reSearchNumber] at h
  | cons c cs ih =>
      intro q h
      by_cases hc : c.isDigit
      · simp only [reSearchNumber, hc, if_true, Option.some.injEq] at h
        rw [← h]
        exact numberValueAt_nonneg _
      · simp only [reSearchNumber, hc, Bool.false_eq_true, if_false] at h
        exact ih q h

/-- C10 (amended): for every string input the scrape-side percent parser
returns `None` or a non-negative fraction (the regex carries no sign, so the
leading minus of "-2.83%" is discarded and it parses to +0.0283); a
*nonzero* numeric input is returned unchanged, while the falsy numeric 0
yields `None`. -/
theorem claim10_percent_to_fraction (s : String) (q : ℚ) :
    (∀ r : ℚ, _parse_percent_to_fraction (PyVal.str s) = some r → 0 ≤ r) ∧
      _parse_percent_to_fraction (PyVal.str "-2.83%") = some (283 / 10000) ∧
      (q ≠ 0 → _parse_percent_to_fraction (PyVal.num q) = some q) ∧
      _parse_percent_to_fraction (PyVal.num 0) = Option.none := by
  refine ⟨fun r hr => ?_, ?_, fun hq => ?_, by decide⟩
  · by_cases hs : s = ""
    · subst hs
      simp [_parse_percent_to_fraction, PyVal.truthy] at hr
    · have htr : (PyVal.str s).truthy = true := by simp [PyVal.truthy, hs]
      rw [_parse_percent_to_fraction, htr] at hr
      simp only [Bool.true_eq_false, if_false] at hr
      rcases hmap : reSearchNumber s.data with _ | a
      · rw [hmap] at hr
        simp at hr
      · rw [hmap] at hr
        simp only [Option.map_some', Option.some.injEq] at hr
        rw [← hr]
        exact div_nonneg (reSearchNumber_nonneg _ a hmap) (by norm_num)
  · have hdata : "-2.83%".data = ['-', '2', '.', '8', '3', '%'] := rfl
    have hsearch : reSearchNumber "-2.83%".data
        = some ((2 : ℚ) + (83 : ℚ) / (10 : ℚ) ^ 2) := by
      rw [hdata]
      have hnd : ('-' : Char).isDigit = false := by decide
      have hd2 : ('2' : Char).isDigit = true := by decide
      rw [reSearchNumber, hnd]
      simp only [Bool.false_eq_true, if_false]
      rw [reSearchNumber, hd2, if_pos rfl, numberValueAt]
      have h4 : List.takeWhile Char.isDigit ['2', '.', '8', '3', '%'] = ['2'] := by
        decide
      have h5 : List.dropWhile Char.isDigit ['2', '.', '8', '3', '%']
          = ['.', '8', '3', '%'] := by decide
      have h6 : List.takeWhile Char.isDigit ['8', '3', '%'] = ['8', '3'] := by
        decide
      simp only [h4, h5, List.drop_one, List.tail_cons, h6]
      rw [if_pos (by exact ⟨rfl, rfl⟩)]
      have h7 : digitsToNat ['2'] = 2 := by decide
      have h8 : digitsToNat ['8', '3'] = 83 := by decide
      rw [h7, h8]
      norm_num
    have htr : (PyVal.str "-2.83%").truthy = true := by decide
    simp only [_parse_percent_to_fraction, htr, Bool.true_eq_false, if_false,
      hsearch, Option.map_some']
    norm_num
  · simp [_parse_percent_to_fraction, PyVal.truthy, hq]

/-- C10 witness: the parser theorem applied at the nonzero numeric 0.02 and
at the string "-2.83%". -/
theorem claim10_witness :
    _parse_percent_to_fraction (PyVal.num (1 / 50)) = some (1 / 50) ∧
      _parse_percent_to_fraction (PyVal.str "-2.83%") = some (283 / 10000) :=
  ⟨(claim10_percent_to_fraction "x" (1 / 50)).2.2.1 (by norm_num),
    (claim10_percent_to_fraction "x" (1 / 50)).2.1⟩
